import Mathlib

/-!
Shallow embedding of `src/optical_flow.py` (class `OpticalFlowCalculator`).

Modelling conventions, fixed throughout:

* The source is Python 2 (it uses the legacy `cv` module), so `/` on two
  integers is floor division; we model Python integers as `Int` and integer
  division as `Int.fdiv` (floor division), and Python floats as exact
  rationals `ℚ`.
* A Python expression that can raise `ZeroDivisionError` or `ValueError` is
  modelled with `Option`: `none` is the raised exception.
* The external OpenCV collaborators (`cv.Resize`, `cv.CvtColor`,
  `cv.CalcOpticalFlowFarneback`) and `math.tan` are not code of this
  repository; they are passed in as function parameters, so theorems
  quantify over (or instantiate) them.  Drawing calls (`cv.Line`,
  `cv.Circle`, `cv.ShowImage`) do not affect any value or state read by the
  velocity computation and are omitted; the ESC-key poll result of
  `cv.WaitKey` is the `cancel : Bool` parameter, and `time.time()` is the
  `now : ℚ` parameter.
-/

set_option autoImplicit false

namespace OpticalFlow

/-- A single-channel 8-bit image: intensity at row `y`, column `x`.
Models the `cv.CreateImage(size, 8, 1)` buffers `self.gray` / `self.prev_gray`. -/
structure GrayImage where
  pix : Nat → Nat → Nat

/-- A 3-channel color image: byte value at row `y`, column `x`, channel `ch`.
Models the `cv.IPL_DEPTH_8U, 3` images (`self.image`, `self.frame2`). -/
structure ColorImage where
  width : Int
  height : Int
  pix : Nat → Nat → Nat → Nat

/-- A dense flow field: cell `(y, x)` holds the `(dx, dy)` displacement pair,
as produced by the external dense-flow estimator. -/
def FlowField : Type := Nat → Nat → ℚ × ℚ

/-- Python float division `a / b`: raises `ZeroDivisionError` (`none`) when
the divisor is zero. -/
def pydiv (a b : ℚ) : Option ℚ :=
  if b = 0 then none else some (a / b)

/-- Python 2 integer division `a / b` on ints: floor division, raising
`ZeroDivisionError` (`none`) when the divisor is zero. -/
def pyIntDiv (a b : Int) : Option Int :=
  if b = 0 then none else some (Int.fdiv a b)

/-- Python truthiness of an optional float: `None` and `0` are falsy. -/
def qtruthy : Option ℚ → Bool
  | none => false
  | some x => decide (x ≠ 0)

/-- The per-session state of `OpticalFlowCalculator`, mirroring the fields
set in `__init__` (line numbers refer to `src/optical_flow.py`):

* `move_step`, `perspective_angle` (lines 54, 57);
* `window`: whether a `window_name` was supplied (line 59; the display is
  otherwise opaque to the core, so only its presence is kept);
* `bgrbytes`: the raw-byte staging buffer (line 66), length
  `native_width*native_height*3`;
* `native_width`/`native_height`: the size of `self.image` (line 67);
* `frame2`, `gray`, `prev_gray`: the scaled buffers (lines 73, 75, 77);
* `flow_width`/`flow_height`: the dimensions of `self.flow` (line 76),
  i.e. the scaled dimensions;
* `frame_width`: `self.frame_width` (line 79) — note the source stores the
  *scaled* width here, after the reassignment on line 69;
* `prev_time` (line 81). -/
structure OpticalFlowCalculator where
  move_step : Int
  perspective_angle : ℚ
  window : Bool
  bgrbytes : List Nat
  native_width : Int
  native_height : Int
  frame2 : ColorImage
  gray : GrayImage
  prev_gray : GrayImage
  flow_width : Int
  flow_height : Int
  frame_width : Int
  prev_time : Option ℚ

/-- `OpticalFlowCalculator.__init__` (lines 41-81).  The constructor performs
no explicit parameter validation; the only statements of the constructor
itself that can raise are `bytearray(frame_width*frame_height*3)` (raises
`ValueError` on a negative count) and the divisions
`int(frame_width/scaledown)` (raise `ZeroDivisionError` when
`scaledown == 0`).  The external `cv.CreateImage` allocations are modelled
as total (they are not code of this repository); the fresh image buffers
are all-zero. -/
def init (frame_width frame_height : Int) (scaledown : Int) (perspective_angle : ℚ)
    (move_step : Int) (window : Bool) : Option OpticalFlowCalculator :=
  if frame_width * frame_height * 3 < 0 then none
  else if scaledown = 0 then none
  else
    let sw := Int.fdiv frame_width scaledown
    let sh := Int.fdiv frame_height scaledown
    some { move_step := move_step
           perspective_angle := perspective_angle
           window := window
           bgrbytes := List.replicate (frame_width * frame_height * 3).toNat 0
           native_width := frame_width
           native_height := frame_height
           frame2 := { width := sw, height := sh, pix := fun _ _ _ => 0 }
           gray := { pix := fun _ _ => 0 }
           prev_gray := { pix := fun _ _ => 0 }
           flow_width := sw
           flow_height := sh
           frame_width := sw
           prev_time := none }

/-- Outcome of a `processFrame` / `processBytes` call:
`valueError` models a raised `ValueError` (bad slice assignment, or a zero
`range` step), `zeroDivError` a raised `ZeroDivisionError`, `cancelled` the
`return None` taken when ESC is pressed, and `velocity vx vy` the normal
return value pair. -/
inductive PyResult where
  | valueError
  | cancelled
  | zeroDivError
  | velocity (vx vy : ℚ)
deriving DecidableEq

/-- Number of elements of Python `range(0, stop, step)` for `step ≥ 1`
(zero when `stop ≤ 0`). -/
def pyRangeLen (stop step : Int) : Nat :=
  (stop.toNat + step.toNat - 1) / step.toNat

/-- Python `range(0, stop, step)` as the list of visited indices.
For `step ≥ 1` this is `0, step, 2*step, ...` strictly below `stop`.
A negative `step` with a positive `stop` yields the empty range, as in
Python; `step = 0` (which raises `ValueError` in Python) is guarded by the
caller `processFrame` before this function is used. -/
def pyRange (stop step : Int) : List Nat :=
  if 1 ≤ step then List.range' 0 (pyRangeLen stop step) step.toNat else []

/-- Lines 137-141: the effective timestep.  `not timestep` is Python
truthiness (`None` and `0` are falsy — and the *default* for an absent
argument is `1`, which is truthy); the fallback is `now - prev_time` when
`self.prev_time` is truthy, else `1`. -/
def resolveTimestep (timestep : Option ℚ) (prev_time : Option ℚ) (now : ℚ) : ℚ :=
  if qtruthy timestep then timestep.getD 1
  else if qtruthy prev_time then now - prev_time.getD 0
  else 1

/-- `_velocity_meters_per_second` (lines 157-163).  `dimsize_pixels` is a
Python int, so `dimsize_pixels/2` is floor division; the two subsequent
divisions are float divisions.  `tan` is the injected `math.tan`. -/
def velocity_meters_per_second (tan : ℚ → ℚ) (c : OpticalFlowCalculator)
    (velocity_pixels_per_second : ℚ) (dimsize_pixels : Int)
    (distance_meters : ℚ) : Option ℚ := do
  let distance_pixels ← pydiv ((Int.fdiv dimsize_pixels 2 : Int) : ℚ)
    (tan (c.perspective_angle / 2))
  let pixels_per_meter ← pydiv distance_pixels distance_meters
  pydiv velocity_pixels_per_second pixels_per_meter

/-- `_get_velocity` (lines 147-155).  `count` is Python 2 integer floor
division (both operands are ints); the two divisions on line 151 are float
divisions; the condition on line 154 is Python truthiness of
`self.perspective_angle and distance_meters`. -/
def get_velocity (tan : ℚ → ℚ) (c : OpticalFlowCalculator) (sum_velocity_pixels : ℚ)
    (dimsize_pixels : Int) (distance_meters : Option ℚ)
    (timestep_seconds : ℚ) : Option ℚ := do
  let count ← pyIntDiv (c.flow_height * c.flow_width) (c.move_step ^ 2)
  let q ← pydiv sum_velocity_pixels (count : ℚ)
  let average_velocity_pixels_per_second ← pydiv q timestep_seconds
  if c.perspective_angle ≠ 0 ∧ qtruthy distance_meters = true then
    velocity_meters_per_second tan c average_velocity_pixels_per_second dimsize_pixels
      (distance_meters.getD 0)
  else
    pure average_velocity_pixels_per_second

/-- `processFrame` (lines 101-145).  Returns the state after the call
together with the call's outcome.  Step-by-step correspondence:

* `cv.Resize` / `cv.CvtColor` (lines 111-113) overwrite `self.frame2` and
  `self.gray` in place — they are overwritten even on the cancelled path,
  which happens before the buffer rotation;
* `cv.CalcOpticalFlowFarneback` (line 115) produces the flow field from
  `self.prev_gray` and the freshly written `self.gray`;
* the nested sampling loops (lines 119-125) accumulate `xsum`/`ysum` over
  `range(0, flow.height, move_step) × range(0, flow.width, move_step)`;
  a zero `move_step` makes `range` raise `ValueError`;
* the display block (lines 130-133) returns `None` when ESC was pressed
  (`cancel`), but only when a window is attached;
* the buffer rotation (line 135) swaps `prev_gray` and `gray`;
* the timestep resolution and timestamp update (lines 137-141);
* the two `_get_velocity` calls (lines 144-145). -/
def processFrame (resize : ColorImage → ColorImage) (cvtColor : ColorImage → GrayImage)
    (calcFlow : GrayImage → GrayImage → FlowField) (tan : ℚ → ℚ)
    (cancel : Bool) (now : ℚ) (c : OpticalFlowCalculator) (frame : ColorImage)
    (distance : Option ℚ) (timestep : Option ℚ) : OpticalFlowCalculator × PyResult :=
  let frame2 := resize frame
  let gray := cvtColor frame2
  let flow := calcFlow c.prev_gray gray
  let c1 := { c with frame2 := frame2, gray := gray }
  if c.move_step = 0 then (c1, .valueError)
  else
    let ys := pyRange c.flow_height c.move_step
    let xs := pyRange c.flow_width c.move_step
    let xsum : ℚ := (ys.map fun y => (xs.map fun x => (flow y x).1).sum).sum
    let ysum : ℚ := (ys.map fun y => (xs.map fun x => (flow y x).2).sum).sum
    if c1.window && cancel then (c1, .cancelled)
    else
      let c2 := { c1 with prev_gray := gray, gray := c1.prev_gray }
      let ts := resolveTimestep timestep c2.prev_time now
      let c3 := { c2 with prev_time := some now }
      match get_velocity tan c3 xsum c3.flow_width distance ts,
            get_velocity tan c3 ysum c3.flow_height distance ts with
      | some vx, some vy => (c3, .velocity vx vy)
      | _, _ => (c3, .zeroDivError)

/-- Length of the Python extended slice `l[start::3]` (for `start < 3`). -/
def sliceLen3 (len start : Nat) : Nat := (len + 2 - start) / 3

/-- The Python extended slice `l[start::3]` (for `start < 3`): the elements
at indices `start, start+3, start+6, ...`. -/
def getSlice3 (l : List Nat) (start : Nat) : List Nat :=
  (List.range (sliceLen3 l.length start)).map fun j => l.getD (start + 3 * j) 0

/-- Python extended-slice assignment `target[start::3] = src` on a
`bytearray`, for `start < 3`.  An extended-slice assignment first checks
that the source length equals the slice length and raises `ValueError`
(`none`) without mutating anything otherwise; on success position `i` with
`i % 3 = start` receives `src[i / 3]` and every other position is kept. -/
def setSlice3 (target : List Nat) (start : Nat) (src : List Nat) : Option (List Nat) :=
  if src.length = sliceLen3 target.length start then
    some ((List.range target.length).map fun i =>
      if i % 3 = start then src.getD (i / 3) 0 else target.getD i 0)
  else none

/-- `cv.SetData(image, data, step)`: reinterpret the flat byte buffer
`data` as an image with row stride `step` bytes: the byte of row `y`,
column `x`, channel `ch` sits at offset `y*step + 3*x + ch`. -/
def setData (width height : Int) (data : List Nat) (step : Int) : ColorImage :=
  { width := width
    height := height
    pix := fun y x ch =>
      let idx : Int := (y : Int) * step + 3 * (x : Int) + (ch : Int)
      if 0 ≤ idx then data.getD idx.toNat 0 else 0 }

/-- `processBytes` (lines 83-99): the three extended-slice assignments of
lines 93-95 (each may raise `ValueError`, leaving the earlier assignments
in place), then `cv.SetData(self.image, self.bgrbytes, self.frame_width*3)`
(line 97; note `self.frame_width` is the *scaled* width), then the
`processFrame` call. -/
def processBytes (resize : ColorImage → ColorImage) (cvtColor : ColorImage → GrayImage)
    (calcFlow : GrayImage → GrayImage → FlowField) (tan : ℚ → ℚ)
    (cancel : Bool) (now : ℚ) (c : OpticalFlowCalculator) (rgb_bytes : List Nat)
    (distance : Option ℚ) (timestep : Option ℚ) : OpticalFlowCalculator × PyResult :=
  match setSlice3 c.bgrbytes 0 (getSlice3 rgb_bytes 2) with
  | none => (c, .valueError)
  | some b0 =>
    match setSlice3 b0 1 (getSlice3 rgb_bytes 1) with
    | none => ({ c with bgrbytes := b0 }, .valueError)
    | some b1 =>
      match setSlice3 b1 2 (getSlice3 rgb_bytes 0) with
      | none => ({ c with bgrbytes := b1 }, .valueError)
      | some b2 =>
        let c2 := { c with bgrbytes := b2 }
        let image := setData c2.native_width c2.native_height b2 (c2.frame_width * 3)
        processFrame resize cvtColor calcFlow tan cancel now c2 image distance timestep

/-- Modelled from the spec (section 4.1, `processRawBytes`): identical to
`processBytes` except that the staging image is "the bytes wrapped as a
FrameBuffer of native resolution", i.e. the row stride is
`native_width*3`.  This is the spec-side reference point for the
refinement claim about `processBytes`. -/
def processBytes_spec (resize : ColorImage → ColorImage) (cvtColor : ColorImage → GrayImage)
    (calcFlow : GrayImage → GrayImage → FlowField) (tan : ℚ → ℚ)
    (cancel : Bool) (now : ℚ) (c : OpticalFlowCalculator) (rgb_bytes : List Nat)
    (distance : Option ℚ) (timestep : Option ℚ) : OpticalFlowCalculator × PyResult :=
  match setSlice3 c.bgrbytes 0 (getSlice3 rgb_bytes 2) with
  | none => (c, .valueError)
  | some b0 =>
    match setSlice3 b0 1 (getSlice3 rgb_bytes 1) with
    | none => ({ c with bgrbytes := b0 }, .valueError)
    | some b1 =>
      match setSlice3 b1 2 (getSlice3 rgb_bytes 0) with
      | none => ({ c with bgrbytes := b1 }, .valueError)
      | some b2 =>
        let c2 := { c with bgrbytes := b2 }
        let image := setData c2.native_width c2.native_height b2 (c2.native_width * 3)
        processFrame resize cvtColor calcFlow tan cancel now c2 image distance timestep

/-! ### Concrete collaborator stubs and calculator instances

These are used by the closed witness and counterexample theorems: concrete,
deterministic instantiations of the external collaborators (resize,
grayscale conversion, dense-flow estimator, tangent) and calculators built
through `init`. -/

/-- Fallback calculator for `Option.getD`; never actually reached because the
`init` calls below all succeed. -/
def cJunk : OpticalFlowCalculator :=
  { move_step := 1, perspective_angle := 0, window := false, bgrbytes := []
    native_width := 0, native_height := 0
    frame2 := { width := 0, height := 0, pix := fun _ _ _ => 0 }
    gray := { pix := fun _ _ => 0 }, prev_gray := { pix := fun _ _ => 0 }
    flow_width := 0, flow_height := 0, frame_width := 0, prev_time := none }

/-- Resize stub: the identity. -/
def idResize : ColorImage → ColorImage := fun img => img

/-- Grayscale-conversion stub: all-black output. -/
def zeroGray : ColorImage → GrayImage := fun _ => { pix := fun _ _ => 0 }

/-- Grayscale-conversion stub reading channel 0 of the row below: makes the
velocity depend on the second image row. -/
def shiftGray : ColorImage → GrayImage := fun img => { pix := fun y x => img.pix (y + 1) x 0 }

/-- Deterministic estimator stub: constant flow field (dx = 3, dy = -2). -/
def constFlow32 : GrayImage → GrayImage → FlowField := fun _ _ _ _ => (3, -2)

/-- Deterministic estimator stub: constant flow field (dx = 6, dy = 0). -/
def constFlow6 : GrayImage → GrayImage → FlowField := fun _ _ _ _ => (6, 0)

/-- Deterministic estimator stub whose dx at cell (y, x) is the current
gray value at (y, x): makes the velocity depend on the frame content. -/
def grayFlow : GrayImage → GrayImage → FlowField :=
  fun _ g y x => ((g.pix y x : ℚ), 0)

/-- Deterministic estimator stub with a non-constant field:
cell (y, x) holds (x + 2y, y). -/
def varFlow : GrayImage → GrayImage → FlowField :=
  fun _ _ y x => ((x : ℚ) + 2 * (y : ℚ), (y : ℚ))

/-- Tangent stub: the identity function. -/
def tanId : ℚ → ℚ := fun x => x

/-- All-black 3-channel frame. -/
def blackFrame : ColorImage := { width := 3, height := 3, pix := fun _ _ _ => 0 }

/-- Calculator: native 3x3, no scaling, stride 2, no window.  The stride does
not divide the 3x3 dimensions. -/
def calc3x3s2 : OpticalFlowCalculator := (init 3 3 1 0 2 false).getD cJunk

/-- Calculator: native 4x4, no scaling, stride 2, no window. -/
def calc4x4s2 : OpticalFlowCalculator := (init 4 4 1 0 2 false).getD cJunk

/-- Calculator: native 4x4, no scaling, stride 5 (exceeding the dimensions). -/
def calc4x4s5 : OpticalFlowCalculator := (init 4 4 1 0 5 false).getD cJunk

/-- Calculator: native 4x4, stride 2, perspective angle 1. -/
def calcPersp : OpticalFlowCalculator := (init 4 4 1 1 2 false).getD cJunk

/-- Calculator: native 1x1, stride 1 (staging buffer of 3 bytes). -/
def calcTiny : OpticalFlowCalculator := (init 1 1 1 0 1 false).getD cJunk

/-- Calculator: native 2x2 with scaledown 2, so the scaled size is 1x1 and
the stored `frame_width` is 1 while `native_width` is 2. -/
def calcScaled : OpticalFlowCalculator := (init 2 2 2 0 1 false).getD cJunk

/-- Calculator: native 3x3, stride 2, with a display window attached. -/
def calcWin : OpticalFlowCalculator := (init 3 3 1 0 2 true).getD cJunk

/-- Calculator: native 640x480 with scaledown 2. -/
def calc640 : OpticalFlowCalculator := (init 640 480 2 0 16 false).getD cJunk

/-- A 12-byte input buffer for the 2x2-native calculator, with distinct
values at the positions that the two candidate row strides read. -/
def rgb12 : List Nat := [0, 0, 0, 0, 0, 10, 0, 0, 20, 0, 0, 0]

/-- The state after a non-cancelled `processFrame` call: `frame2` and `gray`
freshly written, the gray buffers rotated (lines 111-113 and 135) and the
timestamp stamped (line 141): an abbreviation used to state the unfolding
lemma for `processFrame`. -/
def rotated (c : OpticalFlowCalculator) (frame2 : ColorImage) (g : GrayImage)
    (now : ℚ) : OpticalFlowCalculator :=
  { c with frame2 := frame2, prev_gray := g, gray := c.prev_gray, prev_time := some now }

/-! ### Helper lemmas about the sampling loop -/

lemma list_sum_const (l : List Nat) (a : ℚ) : (l.map fun _ => a).sum = l.length * a := by
  induction l with
  | nil => simp
  | cons x xs ih => simp [ih]; ring

lemma sum_range'_map (f : Nat → ℚ) (s : Nat) :
    ∀ (n a : Nat), ((List.range' a n s).map f).sum = ∑ k ∈ Finset.range n, f (a + k * s)
  | 0, a => by simp
  | n + 1, a => by
    rw [List.range'_succ, List.map_cons, List.sum_cons, sum_range'_map f s n (a + s),
      Finset.sum_range_succ']
    have h1 : ∀ k : Nat, a + s + k * s = a + (k + 1) * s := by intro k; ring
    simp only [h1, Nat.zero_mul, Nat.add_zero]
    exact add_comm _ _

lemma lt_ceilDiv_iff (s m k : Nat) (hs : 0 < s) : k < (m + s - 1) / s ↔ k * s < m := by
  rw [Nat.lt_iff_add_one_le, Nat.le_div_iff_mul_le hs]
  have h1 : (k + 1) * s = k * s + s := by ring
  rw [h1]
  omega

lemma image_range_mul (s m : Nat) (hs : 0 < s) :
    (Finset.range ((m + s - 1) / s)).image (fun k => k * s) =
      (Finset.range m).filter (fun x => s ∣ x) := by
  ext x
  simp only [Finset.mem_image, Finset.mem_range, Finset.mem_filter]
  constructor
  · rintro ⟨k, hk, rfl⟩
    exact ⟨(lt_ceilDiv_iff s m k hs).1 hk, Dvd.intro_left k rfl⟩
  · rintro ⟨hx, q, rfl⟩
    exact ⟨q, (lt_ceilDiv_iff s m q hs).2 (by rwa [Nat.mul_comm]), Nat.mul_comm q s⟩

/-- The nested-loop sum over Python `range(0, stop, step)` equals the sum over
all multiples of the stride strictly below the bound. -/
lemma sum_pyRange (f : Nat → ℚ) (stop step : Int) (hs : 1 ≤ step) :
    ((pyRange stop step).map f).sum =
      ∑ x ∈ (Finset.range stop.toNat).filter (fun x => step.toNat ∣ x), f x := by
  have hs0 : 0 < step.toNat := by omega
  rw [pyRange, if_pos hs, pyRangeLen, sum_range'_map,
    ← image_range_mul step.toNat stop.toNat hs0,
    Finset.sum_image (fun a _ b _ h => Nat.eq_of_mul_eq_mul_right hs0 h)]
  simp

lemma length_pyRange (stop step : Int) (hs : 1 ≤ step) :
    (pyRange stop step).length = (stop.toNat + step.toNat - 1) / step.toNat := by
  rw [pyRange, if_pos hs, pyRangeLen, List.length_range']

/-- When the stride divides a nonneg bound exactly, the visited count is the
exact quotient. -/
lemma length_pyRange_dvd (stop step : Int) (hs : 1 ≤ step) (hpos : 0 ≤ stop)
    (hd : step ∣ stop) : ((pyRange stop step).length : Int) = Int.fdiv stop step := by
  obtain ⟨q, rfl⟩ := hd
  have hq : 0 ≤ q := by
    rcases le_or_lt 0 q with h | h
    · exact h
    · exfalso; nlinarith
  lift step to Nat using (by omega : (0 : Int) ≤ step) with S
  lift q to Nat using hq with Q
  have hS : 0 < S := by exact_mod_cast by omega
  rw [length_pyRange _ _ hs, ← Nat.cast_mul, ← Int.ofNat_fdiv]
  rw [Int.toNat_natCast, Int.toNat_natCast]
  have h3 : S * Q + S - 1 = S * Q + (S - 1) := by omega
  rw [h3, Nat.mul_add_div hS, Nat.div_eq_of_lt (by omega), Nat.add_zero,
    Nat.mul_div_cancel_left _ hS]

/-! ### Helper lemmas about extended-slice assignment -/

lemma getSlice3_length (l : List Nat) (k : Nat) :
    (getSlice3 l k).length = sliceLen3 l.length k := by
  simp [getSlice3]

lemma setSlice3_length {b src b2 : List Nat} {k : Nat}
    (h : setSlice3 b k src = some b2) : b2.length = b.length := by
  rw [setSlice3] at h
  split at h
  · injection h with h2
    rw [← h2, List.length_map, List.length_range]
  · cases h

lemma setSlice3_none {b src : List Nat} {k : Nat}
    (h : src.length ≠ sliceLen3 b.length k) : setSlice3 b k src = none := by
  rw [setSlice3, if_neg h]

lemma getD_range_map (n i : Nat) (f : Nat → Nat) :
    ((List.range n).map f).getD i 0 = if i < n then f i else 0 := by
  rcases lt_or_ge i n with h | h
  · rw [if_pos h, List.getD_eq_getElem?_getD, List.getElem?_map, List.getElem?_range h]
    rfl
  · rw [if_neg (by omega), List.getD_eq_getElem?_getD, List.getElem?_map,
      List.getElem?_eq_none (by simpa using h)]
    rfl

lemma setSlice3_getD {b src b2 : List Nat} {k : Nat}
    (h : setSlice3 b k src = some b2) (i : Nat) :
    b2.getD i 0 = if i < b.length then
      (if i % 3 = k then src.getD (i / 3) 0 else b.getD i 0) else 0 := by
  rw [setSlice3] at h
  split at h
  · injection h with h2
    rw [← h2, getD_range_map]
  · cases h

lemma eq_of_getD {l1 l2 : List Nat} (hlen : l1.length = l2.length)
    (h : ∀ i, l1.getD i 0 = l2.getD i 0) : l1 = l2 := by
  apply List.ext_getElem hlen
  intro i h1 h2
  have h3 := h i
  rw [List.getD_eq_getElem?_getD, List.getD_eq_getElem?_getD,
    List.getElem?_eq_getElem h1, List.getElem?_eq_getElem h2] at h3
  simpa using h3

/-- On a staging buffer whose length is a multiple of 3 and an input of the
same length, the three slice assignments of `processBytes` all succeed and
the final buffer content is determined by the input alone (every position
is overwritten). -/
lemma setSlice3_chain (b rgb2 : List Nat) (hmod : b.length % 3 = 0)
    (hR : rgb2.length = b.length) :
    ∃ f0 f1 f2 : List Nat,
      setSlice3 b 0 (getSlice3 rgb2 2) = some f0
      ∧ setSlice3 f0 1 (getSlice3 rgb2 1) = some f1
      ∧ setSlice3 f1 2 (getSlice3 rgb2 0) = some f2
      ∧ f2.length = b.length
      ∧ ∀ i, f2.getD i 0 = if i < b.length then
          (if i % 3 = 0 then (getSlice3 rgb2 2).getD (i / 3) 0
           else if i % 3 = 1 then (getSlice3 rgb2 1).getD (i / 3) 0
           else (getSlice3 rgb2 0).getD (i / 3) 0) else 0 := by
  have hs0 : (getSlice3 rgb2 2).length = sliceLen3 b.length 0 := by
    rw [getSlice3_length]
    simp only [sliceLen3, hR]
    omega
  obtain ⟨f0, e0⟩ : ∃ f0, setSlice3 b 0 (getSlice3 rgb2 2) = some f0 :=
    ⟨_, by rw [setSlice3, if_pos hs0]⟩
  have l0 : f0.length = b.length := setSlice3_length e0
  have hs1 : (getSlice3 rgb2 1).length = sliceLen3 f0.length 1 := by
    rw [getSlice3_length]
    simp only [sliceLen3, hR, l0]
  obtain ⟨f1, e1⟩ : ∃ f1, setSlice3 f0 1 (getSlice3 rgb2 1) = some f1 :=
    ⟨_, by rw [setSlice3, if_pos hs1]⟩
  have l1 : f1.length = b.length := by rw [setSlice3_length e1, l0]
  have hs2 : (getSlice3 rgb2 0).length = sliceLen3 f1.length 2 := by
    rw [getSlice3_length]
    simp only [sliceLen3, hR, l1]
    omega
  obtain ⟨f2, e2⟩ : ∃ f2, setSlice3 f1 2 (getSlice3 rgb2 0) = some f2 :=
    ⟨_, by rw [setSlice3, if_pos hs2]⟩
  have l2 : f2.length = b.length := by rw [setSlice3_length e2, l1]
  refine ⟨f0, f1, f2, e0, e1, e2, l2, ?_⟩
  intro i
  rw [setSlice3_getD e2 i, setSlice3_getD e1 i, setSlice3_getD e0 i, l1, l0]
  split_ifs <;> first | rfl | omega

/-- `processBytes` overwrites every byte of the staging buffer on a
correctly sized input, so its behavior does not depend on the staging
buffer's previous content (only on its length). -/
lemma processBytes_retry_indep (resize : ColorImage → ColorImage)
    (cvtColor : ColorImage → GrayImage) (calcFlow : GrayImage → GrayImage → FlowField)
    (tan : ℚ → ℚ) (cancel : Bool) (now : ℚ) (c : OpticalFlowCalculator)
    (bb rgb2 : List Nat) (distance timestep : Option ℚ)
    (hlen : bb.length = c.bgrbytes.length)
    (hmod : c.bgrbytes.length % 3 = 0)
    (hR : rgb2.length = c.bgrbytes.length) :
    processBytes resize cvtColor calcFlow tan cancel now { c with bgrbytes := bb } rgb2
      distance timestep =
    processBytes resize cvtColor calcFlow tan cancel now c rgb2 distance timestep := by
  obtain ⟨f0, f1, f2, e0, e1, e2, l2, hget⟩ := setSlice3_chain c.bgrbytes rgb2 hmod hR
  obtain ⟨g0, g1, g2, d0, d1, d2, m2, hget2⟩ :=
    setSlice3_chain bb rgb2 (by rw [hlen]; exact hmod) (by rw [hlen]; exact hR)
  have hfg : g2 = f2 := by
    apply eq_of_getD (by rw [m2, l2, hlen])
    intro i
    rw [hget i, hget2 i, hlen]
  simp only [processBytes, e0, e1, e2, d0, d1, d2, hfg]

/-! ### Reduction lemmas for the velocity helpers -/

lemma get_velocity_no_persp (tan : ℚ → ℚ) (c : OpticalFlowCalculator) (s : ℚ) (dim : Int)
    (dist : Option ℚ) (ts : ℚ)
    (hms : c.move_step ≠ 0)
    (hcount : Int.fdiv (c.flow_height * c.flow_width) (c.move_step ^ 2) ≠ 0)
    (hts : ts ≠ 0)
    (hnp : ¬(c.perspective_angle ≠ 0 ∧ qtruthy dist = true)) :
    get_velocity tan c s dim dist ts =
      some (s / (Int.fdiv (c.flow_height * c.flow_width) (c.move_step ^ 2) : ℚ) / ts) := by
  have hpow : c.move_step ^ 2 ≠ 0 := pow_ne_zero _ hms
  have hcq : (Int.fdiv (c.flow_height * c.flow_width) (c.move_step ^ 2) : ℚ) ≠ 0 :=
    Int.cast_ne_zero.mpr hcount
  simp [get_velocity, pyIntDiv, pydiv, hpow, hcq, hts, hnp, hcount]

lemma get_velocity_count_zero (tan : ℚ → ℚ) (c : OpticalFlowCalculator) (s : ℚ) (dim : Int)
    (dist : Option ℚ) (ts : ℚ)
    (hms : c.move_step ≠ 0)
    (hcount : Int.fdiv (c.flow_height * c.flow_width) (c.move_step ^ 2) = 0) :
    get_velocity tan c s dim dist ts = none := by
  have hpow : c.move_step ^ 2 ≠ 0 := pow_ne_zero _ hms
  simp [get_velocity, pyIntDiv, pydiv, hpow, hcount]

lemma velocity_meters_per_second_eq (tan : ℚ → ℚ) (c : OpticalFlowCalculator) (v : ℚ)
    (dim : Int) (D : ℚ)
    (htan : tan (c.perspective_angle / 2) ≠ 0)
    (hdp : Int.fdiv dim 2 ≠ 0) (hD : D ≠ 0) :
    velocity_meters_per_second tan c v dim D =
      some (v / ((Int.fdiv dim 2 : ℚ) / tan (c.perspective_angle / 2) / D)) := by
  have h1 : (Int.fdiv dim 2 : ℚ) ≠ 0 := Int.cast_ne_zero.mpr hdp
  have h2 : (Int.fdiv dim 2 : ℚ) / tan (c.perspective_angle / 2) ≠ 0 := div_ne_zero h1 htan
  have h3 : (Int.fdiv dim 2 : ℚ) / tan (c.perspective_angle / 2) / D ≠ 0 := div_ne_zero h2 hD
  simp [velocity_meters_per_second, pydiv, htan, h2, h3, hD, h1]

lemma get_velocity_persp (tan : ℚ → ℚ) (c : OpticalFlowCalculator) (s : ℚ) (dim : Int)
    (D : ℚ) (ts : ℚ)
    (hms : c.move_step ≠ 0)
    (hcount : Int.fdiv (c.flow_height * c.flow_width) (c.move_step ^ 2) ≠ 0)
    (hts : ts ≠ 0)
    (hp : c.perspective_angle ≠ 0) (hD : D ≠ 0) :
    get_velocity tan c s dim (some D) ts =
      velocity_meters_per_second tan c
        (s / (Int.fdiv (c.flow_height * c.flow_width) (c.move_step ^ 2) : ℚ) / ts) dim D := by
  have hpow : c.move_step ^ 2 ≠ 0 := pow_ne_zero _ hms
  have hcq : (Int.fdiv (c.flow_height * c.flow_width) (c.move_step ^ 2) : ℚ) ≠ 0 :=
    Int.cast_ne_zero.mpr hcount
  have hq : qtruthy (some D) = true := by simp [qtruthy, hD]
  simp [get_velocity, pyIntDiv, pydiv, hpow, hcq, hts, hp, hq, hcount]

/-- Normal-path unfolding of `processFrame`: with a nonzero stride and no
cancellation, the call rotates the gray buffers, stamps `prev_time`, and
returns the two `get_velocity` results. -/
lemma processFrame_run (resize : ColorImage → ColorImage) (cvtColor : ColorImage → GrayImage)
    (calcFlow : GrayImage → GrayImage → FlowField) (tan : ℚ → ℚ)
    (cancel : Bool) (now : ℚ) (c : OpticalFlowCalculator) (frame : ColorImage)
    (distance : Option ℚ) (timestep : Option ℚ)
    (hms : c.move_step ≠ 0) (hnc : (c.window && cancel) = false) :
    processFrame resize cvtColor calcFlow tan cancel now c frame distance timestep =
      (match
         get_velocity tan (rotated c (resize frame) (cvtColor (resize frame)) now)
           (((pyRange c.flow_height c.move_step).map fun y =>
             ((pyRange c.flow_width c.move_step).map fun x =>
               (calcFlow c.prev_gray (cvtColor (resize frame)) y x).1).sum).sum)
           c.flow_width distance (resolveTimestep timestep c.prev_time now),
         get_velocity tan (rotated c (resize frame) (cvtColor (resize frame)) now)
           (((pyRange c.flow_height c.move_step).map fun y =>
             ((pyRange c.flow_width c.move_step).map fun x =>
               (calcFlow c.prev_gray (cvtColor (resize frame)) y x).2).sum).sum)
           c.flow_height distance (resolveTimestep timestep c.prev_time now) with
       | some vx, some vy =>
         (rotated c (resize frame) (cvtColor (resize frame)) now, PyResult.velocity vx vy)
       | _, _ =>
         (rotated c (resize frame) (cvtColor (resize frame)) now, PyResult.zeroDivError)) := by
  simp only [processFrame, rotated, if_neg hms, hnc, Bool.false_eq_true, if_false, cond_false]

@[simp] lemma rotated_move_step (c : OpticalFlowCalculator) (f : ColorImage) (g : GrayImage)
    (n : ℚ) : (rotated c f g n).move_step = c.move_step := rfl

@[simp] lemma rotated_flow_width (c : OpticalFlowCalculator) (f : ColorImage) (g : GrayImage)
    (n : ℚ) : (rotated c f g n).flow_width = c.flow_width := rfl

@[simp] lemma rotated_flow_height (c : OpticalFlowCalculator) (f : ColorImage) (g : GrayImage)
    (n : ℚ) : (rotated c f g n).flow_height = c.flow_height := rfl

@[simp] lemma rotated_perspective_angle (c : OpticalFlowCalculator) (f : ColorImage)
    (g : GrayImage) (n : ℚ) : (rotated c f g n).perspective_angle = c.perspective_angle := rfl

@[simp] lemma rotated_prev_time (c : OpticalFlowCalculator) (f : ColorImage) (g : GrayImage)
    (n : ℚ) : (rotated c f g n).prev_time = some n := rfl

@[simp] lemma rotated_prev_gray (c : OpticalFlowCalculator) (f : ColorImage) (g : GrayImage)
    (n : ℚ) : (rotated c f g n).prev_gray = g := rfl

/-! ### Claim C2 -/

/-- C2: with no distance supplied (so the returned value is the pixel
velocity) and a supplied nonzero timestep, every non-cancelled
`processFrame` call sums the flow displacements exactly at the grid points
(x, y) whose coordinates are multiples of `move_step` with `x < flow_width`
and `y < flow_height` (points past the last multiple are not sampled), and
for each axis the returned pixel velocity is that axis sum divided by the
integer count `(flow_height * flow_width) / move_step ** 2` (Python floor
division) and then divided by the timestep.  The count must be nonzero
(otherwise the call raises, see the division-by-zero claim). -/
theorem processFrame_grid_sampling (resize : ColorImage → ColorImage)
    (cvtColor : ColorImage → GrayImage) (calcFlow : GrayImage → GrayImage → FlowField)
    (tan : ℚ → ℚ) (cancel : Bool) (now : ℚ) (c : OpticalFlowCalculator)
    (frame : ColorImage) (t : ℚ)
    (hms : 1 ≤ c.move_step)
    (hcount : Int.fdiv (c.flow_height * c.flow_width) (c.move_step ^ 2) ≠ 0)
    (ht : t ≠ 0)
    (hnc : (c.window && cancel) = false) :
    (processFrame resize cvtColor calcFlow tan cancel now c frame none (some t)).2 =
      PyResult.velocity
        ((∑ y ∈ (Finset.range c.flow_height.toNat).filter (fun y => c.move_step.toNat ∣ y),
          ∑ x ∈ (Finset.range c.flow_width.toNat).filter (fun x => c.move_step.toNat ∣ x),
            (calcFlow c.prev_gray (cvtColor (resize frame)) y x).1)
          / (Int.fdiv (c.flow_height * c.flow_width) (c.move_step ^ 2) : ℚ) / t)
        ((∑ y ∈ (Finset.range c.flow_height.toNat).filter (fun y => c.move_step.toNat ∣ y),
          ∑ x ∈ (Finset.range c.flow_width.toNat).filter (fun x => c.move_step.toNat ∣ x),
            (calcFlow c.prev_gray (cvtColor (resize frame)) y x).2)
          / (Int.fdiv (c.flow_height * c.flow_width) (c.move_step ^ 2) : ℚ) / t) := by
  have hms0 : c.move_step ≠ 0 := by omega
  rw [processFrame_run _ _ _ _ _ _ _ _ _ _ hms0 hnc]
  have hts : resolveTimestep (some t) c.prev_time now = t := by
    simp [resolveTimestep, qtruthy, ht]
  rw [hts]
  have hnp : ¬((rotated c (resize frame) (cvtColor (resize frame)) now).perspective_angle ≠ 0
      ∧ qtruthy (none : Option ℚ) = true) := by simp [qtruthy]
  have hxs : (((pyRange c.flow_height c.move_step).map fun y =>
      ((pyRange c.flow_width c.move_step).map fun x =>
        (calcFlow c.prev_gray (cvtColor (resize frame)) y x).1).sum).sum)
      = ∑ y ∈ (Finset.range c.flow_height.toNat).filter (fun y => c.move_step.toNat ∣ y),
        ∑ x ∈ (Finset.range c.flow_width.toNat).filter (fun x => c.move_step.toNat ∣ x),
          (calcFlow c.prev_gray (cvtColor (resize frame)) y x).1 := by
    rw [sum_pyRange _ _ _ hms]
    exact Finset.sum_congr rfl fun y _ => sum_pyRange _ _ _ hms
  have hys : (((pyRange c.flow_height c.move_step).map fun y =>
      ((pyRange c.flow_width c.move_step).map fun x =>
        (calcFlow c.prev_gray (cvtColor (resize frame)) y x).2).sum).sum)
      = ∑ y ∈ (Finset.range c.flow_height.toNat).filter (fun y => c.move_step.toNat ∣ y),
        ∑ x ∈ (Finset.range c.flow_width.toNat).filter (fun x => c.move_step.toNat ∣ x),
          (calcFlow c.prev_gray (cvtColor (resize frame)) y x).2 := by
    rw [sum_pyRange _ _ _ hms]
    exact Finset.sum_congr rfl fun y _ => sum_pyRange _ _ _ hms
  rw [hxs, hys]
  rw [get_velocity_no_persp tan (rotated c (resize frame) (cvtColor (resize frame)) now)
      _ _ _ _ hms0 hcount ht hnp,
    get_velocity_no_persp tan (rotated c (resize frame) (cvtColor (resize frame)) now)
      _ _ _ _ hms0 hcount ht hnp]
  simp

/-- Witness for C2: a concrete non-cancelled run of the 4x4 stride-2
calculator with a non-constant flow stub. -/
theorem processFrame_grid_sampling_witness :
    (processFrame idResize zeroGray varFlow tanId false 0 calc4x4s2 blackFrame none
        (some 1)).2 =
      PyResult.velocity
        ((∑ y ∈ (Finset.range calc4x4s2.flow_height.toNat).filter
            (fun y => calc4x4s2.move_step.toNat ∣ y),
          ∑ x ∈ (Finset.range calc4x4s2.flow_width.toNat).filter
            (fun x => calc4x4s2.move_step.toNat ∣ x),
            (varFlow calc4x4s2.prev_gray (zeroGray (idResize blackFrame)) y x).1)
          / (Int.fdiv (calc4x4s2.flow_height * calc4x4s2.flow_width)
              (calc4x4s2.move_step ^ 2) : ℚ) / 1)
        ((∑ y ∈ (Finset.range calc4x4s2.flow_height.toNat).filter
            (fun y => calc4x4s2.move_step.toNat ∣ y),
          ∑ x ∈ (Finset.range calc4x4s2.flow_width.toNat).filter
            (fun x => calc4x4s2.move_step.toNat ∣ x),
            (varFlow calc4x4s2.prev_gray (zeroGray (idResize blackFrame)) y x).2)
          / (Int.fdiv (calc4x4s2.flow_height * calc4x4s2.flow_width)
              (calc4x4s2.move_step ^ 2) : ℚ) / 1) :=
  processFrame_grid_sampling idResize zeroGray varFlow tanId false 0 calc4x4s2 blackFrame 1
    (by decide) (by decide) (by norm_num) (by decide)

/-! ### Claim C1 -/

/-- C1 counterexample: on a 3x3 scaled grid with stride 2 (stride not
exceeding either dimension) and supplied timestep 1, the constant
(dx = 3, dy = -2) estimator stub yields velocity (6, -4), not
(3/timestep, -2/timestep) = (3, -2): the loop visits 2*2 = 4 grid points but
the normalization count is (3*3)/2² = 2 (floor division), so each axis is
doubled. -/
theorem constant_flow_average_cex :
    (processFrame idResize zeroGray constFlow32 tanId false 0 calc3x3s2 blackFrame none
        (some 1)).2 = PyResult.velocity 6 (-4)
    ∧ PyResult.velocity (6 : ℚ) (-4) ≠ PyResult.velocity (3 / 1 : ℚ) (-2 / 1) := by
  constructor
  · simp [processFrame, calc3x3s2, init, cJunk, idResize, zeroGray, constFlow32, tanId,
      pyRange, pyRangeLen, get_velocity, pydiv, pyIntDiv, resolveTimestep, qtruthy,
      velocity_meters_per_second, blackFrame]
    norm_num
  · norm_num

/-- C1 (amended): for every deterministic estimator stub returning the
constant flow (dx = 3, dy = -2) at every cell, every non-cancelled call to
`processFrame` with a supplied nonzero timestep and no distance returns the
pixel-unit velocity pair (3/timestep, -2/timestep), for every scaled grid
resolution and sampling stride `move_step ≥ 1` that divides both the scaled
width and the scaled height (when the stride does not divide the
dimensions the floor-division normalization count differs from the visited
sample count and the result is scaled accordingly — see the
counterexample). -/
theorem constant_flow_average (resize : ColorImage → ColorImage)
    (cvtColor : ColorImage → GrayImage) (calcFlow : GrayImage → GrayImage → FlowField)
    (tan : ℚ → ℚ) (cancel : Bool) (now : ℚ) (c : OpticalFlowCalculator)
    (frame : ColorImage) (t : ℚ)
    (hflow : ∀ g1 g2 y x, calcFlow g1 g2 y x = ((3 : ℚ), (-2 : ℚ)))
    (hms : 1 ≤ c.move_step)
    (hh : 1 ≤ c.flow_height) (hw : 1 ≤ c.flow_width)
    (hdh : c.move_step ∣ c.flow_height) (hdw : c.move_step ∣ c.flow_width)
    (ht : t ≠ 0)
    (hnc : (c.window && cancel) = false) :
    (processFrame resize cvtColor calcFlow tan cancel now c frame none (some t)).2 =
      PyResult.velocity (3 / t) (-2 / t) := by
  have hms0 : c.move_step ≠ 0 := by omega
  obtain ⟨a, ha⟩ := hdh
  obtain ⟨b, hb⟩ := hdw
  have ha1 : 1 ≤ a := by nlinarith
  have hb1 : 1 ≤ b := by nlinarith
  have hcount : Int.fdiv (c.flow_height * c.flow_width) (c.move_step ^ 2) = a * b := by
    rw [ha, hb]
    have h9 : c.move_step * a * (c.move_step * b) = c.move_step ^ 2 * (a * b) := by ring
    rw [h9, Int.mul_fdiv_cancel_left _ (pow_ne_zero 2 hms0)]
  have hcount0 : Int.fdiv (c.flow_height * c.flow_width) (c.move_step ^ 2) ≠ 0 := by
    rw [hcount]
    have : 0 < a * b := by nlinarith
    omega
  have hlenh : ((pyRange c.flow_height c.move_step).length : ℚ) = (a : ℚ) := by
    have h2 := length_pyRange_dvd c.flow_height c.move_step hms (by omega) ⟨a, ha⟩
    have h3 : Int.fdiv c.flow_height c.move_step = a := by
      rw [ha]; exact Int.mul_fdiv_cancel_left _ hms0
    rw [h3] at h2
    exact_mod_cast h2
  have hlenw : ((pyRange c.flow_width c.move_step).length : ℚ) = (b : ℚ) := by
    have h2 := length_pyRange_dvd c.flow_width c.move_step hms (by omega) ⟨b, hb⟩
    have h3 : Int.fdiv c.flow_width c.move_step = b := by
      rw [hb]; exact Int.mul_fdiv_cancel_left _ hms0
    rw [h3] at h2
    exact_mod_cast h2
  rw [processFrame_run _ _ _ _ _ _ _ _ _ _ hms0 hnc]
  have hts : resolveTimestep (some t) c.prev_time now = t := by
    simp [resolveTimestep, qtruthy, ht]
  rw [hts]
  have hnp : ¬((rotated c (resize frame) (cvtColor (resize frame)) now).perspective_angle ≠ 0
      ∧ qtruthy (none : Option ℚ) = true) := by simp [qtruthy]
  have hinner1 : ∀ y : Nat, ((pyRange c.flow_width c.move_step).map fun x =>
      (calcFlow c.prev_gray (cvtColor (resize frame)) y x).1).sum
      = ((pyRange c.flow_width c.move_step).length : ℚ) * 3 := by
    intro y
    simp only [hflow]
    exact list_sum_const _ _
  have hinner2 : ∀ y : Nat, ((pyRange c.flow_width c.move_step).map fun x =>
      (calcFlow c.prev_gray (cvtColor (resize frame)) y x).2).sum
      = ((pyRange c.flow_width c.move_step).length : ℚ) * (-2) := by
    intro y
    simp only [hflow]
    exact list_sum_const _ _
  have hxs : (((pyRange c.flow_height c.move_step).map fun y =>
      ((pyRange c.flow_width c.move_step).map fun x =>
        (calcFlow c.prev_gray (cvtColor (resize frame)) y x).1).sum).sum)
      = ((pyRange c.flow_height c.move_step).length : ℚ) *
        (((pyRange c.flow_width c.move_step).length : ℚ) * 3) := by
    simp only [hinner1]
    exact list_sum_const _ _
  have hys : (((pyRange c.flow_height c.move_step).map fun y =>
      ((pyRange c.flow_width c.move_step).map fun x =>
        (calcFlow c.prev_gray (cvtColor (resize frame)) y x).2).sum).sum)
      = ((pyRange c.flow_height c.move_step).length : ℚ) *
        (((pyRange c.flow_width c.move_step).length : ℚ) * (-2)) := by
    simp only [hinner2]
    exact list_sum_const _ _
  rw [hxs, hys, hlenh, hlenw]
  rw [get_velocity_no_persp tan (rotated c (resize frame) (cvtColor (resize frame)) now)
      _ _ _ _ hms0 hcount0 ht hnp,
    get_velocity_no_persp tan (rotated c (resize frame) (cvtColor (resize frame)) now)
      _ _ _ _ hms0 hcount0 ht hnp]
  have ha0 : (a : ℚ) ≠ 0 := by exact_mod_cast by omega
  have hb0 : (b : ℚ) ≠ 0 := by exact_mod_cast by omega
  simp only [rotated_flow_height, rotated_flow_width, rotated_move_step, hcount]
  have hcast : ((a * b : Int) : ℚ) = (a : ℚ) * (b : ℚ) := by push_cast; ring
  rw [hcast]
  congr 1
  · field_simp
    ring
  · field_simp
    ring

/-- Witness for C1: the 4x4 calculator with stride 2 (which divides both
dimensions) returns exactly (3/1, -2/1) for the constant stub. -/
theorem constant_flow_average_witness :
    (processFrame idResize zeroGray constFlow32 tanId false 0 calc4x4s2 blackFrame none
        (some 1)).2 = PyResult.velocity (3 / 1) (-2 / 1) :=
  constant_flow_average idResize zeroGray constFlow32 tanId false 0 calc4x4s2 blackFrame 1
    (fun _ _ _ _ => rfl) (by decide) (by decide) (by decide) (by decide) (by decide)
    (by norm_num) (by decide)

/-! ### Claim C3 -/

/-- C3 counterexample: the claim says an ABSENT timestep triggers the
wall-clock fallback (now - previous timestamp).  In the code the parameter
defaults to 1, which is truthy, so a call that omits the timestep uses 1.
Concretely: a first call at time 5 stores prev_time = 5; a second call at
time 8 with the defaulted timestep (some 1) and a constant (6, 0) flow on
the 1x1 stride-1 calculator returns velocity (6, 0) — the sum divided by
1 — and not (6 / (8 - 5), 0) as the claim predicts for an absent
timestep. -/
theorem timestep_default_cex :
    (processFrame idResize zeroGray constFlow6 tanId false 8
        (processFrame idResize zeroGray constFlow6 tanId false 5 calcTiny blackFrame none
          (some 1)).1
        blackFrame none (some 1)).2 = PyResult.velocity 6 0
    ∧ PyResult.velocity (6 : ℚ) 0 ≠ PyResult.velocity ((6 : ℚ) / (8 - 5)) 0 := by
  constructor
  · simp [processFrame, calcTiny, init, cJunk, idResize, zeroGray, constFlow6, tanId,
      pyRange, pyRangeLen, get_velocity, pydiv, pyIntDiv, resolveTimestep, qtruthy,
      velocity_meters_per_second, blackFrame]
  · norm_num

/-- C3 (amended): a supplied nonzero timestep is used as the elapsed time;
an absent timestep defaults to 1 and that value is used (the default is
truthy, so the wall-clock fallback is not taken); only a supplied falsy
timestep (0, or None) triggers the fallback, which is now minus the stored
previous timestamp when a truthy one exists and 1 otherwise; and every
non-cancelled call (with a nonzero stride) updates the stored timestamp to
the current time regardless of which branch was taken. -/
theorem timestep_policy :
    (∀ (t : ℚ) (p : Option ℚ) (now : ℚ), t ≠ 0 → resolveTimestep (some t) p now = t)
    ∧ (∀ (p : Option ℚ) (now : ℚ), resolveTimestep (some 1) p now = 1)
    ∧ (∀ (p : ℚ) (now : ℚ), p ≠ 0 → resolveTimestep (some 0) (some p) now = now - p)
    ∧ (∀ (p : ℚ) (now : ℚ), p ≠ 0 → resolveTimestep none (some p) now = now - p)
    ∧ (∀ now : ℚ, resolveTimestep (some 0) none now = 1)
    ∧ (∀ now : ℚ, resolveTimestep none none now = 1)
    ∧ (∀ (resize : ColorImage → ColorImage) (cvtColor : ColorImage → GrayImage)
        (calcFlow : GrayImage → GrayImage → FlowField) (tan : ℚ → ℚ) (cancel : Bool)
        (now : ℚ) (c : OpticalFlowCalculator) (frame : ColorImage)
        (distance timestep : Option ℚ),
        c.move_step ≠ 0 → (c.window && cancel) = false →
        (processFrame resize cvtColor calcFlow tan cancel now c frame
            distance timestep).1.prev_time = some now) := by
  refine ⟨?_, ?_, ?_, ?_, ?_, ?_, ?_⟩
  · intro t p now ht; simp [resolveTimestep, qtruthy, ht]
  · intro p now; simp [resolveTimestep, qtruthy]
  · intro p now hp; simp [resolveTimestep, qtruthy, hp]
  · intro p now hp; simp [resolveTimestep, qtruthy, hp]
  · intro now; simp [resolveTimestep, qtruthy]
  · intro now; simp [resolveTimestep, qtruthy]
  · intro resize cvtColor calcFlow tan cancel now c frame distance timestep hms hnc
    rw [processFrame_run _ _ _ _ _ _ _ _ _ _ hms hnc]
    rcases h1 : get_velocity tan (rotated c (resize frame) (cvtColor (resize frame)) now)
      (((pyRange c.flow_height c.move_step).map fun y =>
        ((pyRange c.flow_width c.move_step).map fun x =>
          (calcFlow c.prev_gray (cvtColor (resize frame)) y x).1).sum).sum)
      c.flow_width distance (resolveTimestep timestep c.prev_time now) with _ | vx <;>
      rcases h2 : get_velocity tan (rotated c (resize frame) (cvtColor (resize frame)) now)
        (((pyRange c.flow_height c.move_step).map fun y =>
          ((pyRange c.flow_width c.move_step).map fun x =>
            (calcFlow c.prev_gray (cvtColor (resize frame)) y x).2).sum).sum)
        c.flow_height distance (resolveTimestep timestep c.prev_time now) with _ | vy <;>
      simp [h1, h2]

/-- Witness for C3 (amended): a half-second supplied timestep is used as
is, a supplied zero timestep falls back to now - prev, and a concrete
non-cancelled call stamps the current time. -/
theorem timestep_policy_witness :
    resolveTimestep (some (1 / 2)) (some 5) 8 = 1 / 2
    ∧ resolveTimestep (some 0) (some 5) 8 = 8 - 5
    ∧ (processFrame idResize zeroGray constFlow6 tanId false 9 calcTiny blackFrame none
        (some 1)).1.prev_time = some 9 :=
  ⟨timestep_policy.1 (1 / 2) (some 5) 8 (by norm_num),
    timestep_policy.2.2.1 5 8 (by norm_num),
    timestep_policy.2.2.2.2.2.2 idResize zeroGray constFlow6 tanId false 9 calcTiny
      blackFrame none (some 1) (by decide) (by decide)⟩

/-! ### Claim C4 -/

/-- C4: the perspective conversion to meters/second is applied if and only
if the configured perspective_angle is nonzero and a truthy (non-None,
nonzero) distance is supplied; in that case each axis is independently
converted as velocity_px_per_s / pixels_per_meter with
distance_in_pixels = (dimsize_pixels / 2) / tan(perspective_angle / 2)
(the `/ 2` on the int dimension being Python floor division) and
pixels_per_meter = distance_in_pixels / distance_meters; otherwise the
pixels/second value is returned unchanged.  The side conditions keep every
Python division defined: nonzero sample count and timestep, and in the
conversion a nonzero half-angle tangent and a nonzero floored
half-dimension. -/
theorem get_velocity_perspective_iff (tan : ℚ → ℚ) (c : OpticalFlowCalculator)
    (s : ℚ) (dim : Int) (dist : Option ℚ) (ts : ℚ)
    (hms : c.move_step ≠ 0)
    (hcount : Int.fdiv (c.flow_height * c.flow_width) (c.move_step ^ 2) ≠ 0)
    (hts : ts ≠ 0) :
    (¬(c.perspective_angle ≠ 0 ∧ qtruthy dist = true) →
      get_velocity tan c s dim dist ts =
        some (s / (Int.fdiv (c.flow_height * c.flow_width) (c.move_step ^ 2) : ℚ) / ts))
    ∧ (∀ D, dist = some D → D ≠ 0 → c.perspective_angle ≠ 0 →
        tan (c.perspective_angle / 2) ≠ 0 → Int.fdiv dim 2 ≠ 0 →
        get_velocity tan c s dim dist ts =
          some ((s / (Int.fdiv (c.flow_height * c.flow_width) (c.move_step ^ 2) : ℚ) / ts)
            / ((Int.fdiv dim 2 : ℚ) / tan (c.perspective_angle / 2) / D))) := by
  constructor
  · intro hnp
    exact get_velocity_no_persp tan c s dim dist ts hms hcount hts hnp
  · rintro D rfl hD hp htan hdp
    rw [get_velocity_persp tan c s dim D ts hms hcount hts hp hD,
      velocity_meters_per_second_eq tan c _ dim D htan hdp hD]

/-- Witness for C4: on the angle-1 4x4 calculator, a call without a
distance returns the pixel velocity unchanged, and a call with distance 2
returns the converted value. -/
theorem get_velocity_perspective_iff_witness :
    get_velocity tanId calcPersp 8 10 none 1 =
      some (8 / (Int.fdiv (calcPersp.flow_height * calcPersp.flow_width)
        (calcPersp.move_step ^ 2) : ℚ) / 1)
    ∧ get_velocity tanId calcPersp 8 10 (some 2) 1 =
      some ((8 / (Int.fdiv (calcPersp.flow_height * calcPersp.flow_width)
          (calcPersp.move_step ^ 2) : ℚ) / 1)
        / ((Int.fdiv 10 2 : ℚ) / tanId (calcPersp.perspective_angle / 2) / 2)) :=
  ⟨(get_velocity_perspective_iff tanId calcPersp 8 10 none 1 (by decide) (by decide)
      (by norm_num)).1 (by simp [qtruthy]),
    (get_velocity_perspective_iff tanId calcPersp 8 10 (some 2) 1 (by decide) (by decide)
      (by norm_num)).2 2 rfl (by norm_num)
      (by norm_num [calcPersp, init, cJunk])
      (by norm_num [tanId, calcPersp, init, cJunk]) (by decide)⟩

/-! ### Claim C9 -/

/-- C9 counterexample: the claim quantifies over every axis dimension, but
with axis dimension 1 the floored half-dimension is 0, so
distance_in_pixels and pixels_per_meter are 0 and the conversion itself
raises ZeroDivisionError (modelled as none): no value is returned at all,
so multiplying back by pixels_per_meter cannot recover V = 5. -/
theorem perspective_round_trip_cex :
    velocity_meters_per_second tanId calcPersp 5 1 1 = none
    ∧ Option.map
        (fun m => m * ((Int.fdiv 1 2 : ℚ) / tanId (calcPersp.perspective_angle / 2) / 1))
        (velocity_meters_per_second tanId calcPersp 5 1 1) ≠ some 5 := by
  have h : velocity_meters_per_second tanId calcPersp 5 1 1 = none := by
    have h0 : Int.fdiv 1 2 = 0 := by decide
    norm_num [velocity_meters_per_second, pydiv, tanId, calcPersp, init, cJunk, h0]
  exact ⟨h, by rw [h]; simp⟩

/-- C9 (amended): for every nonzero perspective angle whose half-angle
tangent is nonzero, every nonzero distance, every axis dimension ≥ 2 (so
the floored half-dimension is nonzero) and every pixel velocity V, applying
the meters-per-second conversion and then multiplying by the same
pixels_per_meter factor recovers V exactly: the conversion is an invertible
linear scaling whenever it is defined. -/
theorem perspective_round_trip (tan : ℚ → ℚ) (c : OpticalFlowCalculator) (v : ℚ)
    (dim : Int) (D : ℚ)
    (hangle : c.perspective_angle ≠ 0)
    (htan : tan (c.perspective_angle / 2) ≠ 0)
    (hdim : 2 ≤ dim) (hD : D ≠ 0) :
    ∃ m, velocity_meters_per_second tan c v dim D = some m
      ∧ m * ((Int.fdiv dim 2 : ℚ) / tan (c.perspective_angle / 2) / D) = v := by
  have hdp : Int.fdiv dim 2 ≠ 0 := by
    rw [Int.fdiv_eq_ediv _ (by norm_num)]
    have h1 : 1 ≤ dim / 2 := by
      rw [Int.le_ediv_iff_mul_le (by norm_num)]
      omega
    omega
  refine ⟨_, velocity_meters_per_second_eq tan c v dim D htan hdp hD, ?_⟩
  have h1 : (Int.fdiv dim 2 : ℚ) ≠ 0 := Int.cast_ne_zero.mpr hdp
  have h2 : (Int.fdiv dim 2 : ℚ) / tan (c.perspective_angle / 2) / D ≠ 0 :=
    div_ne_zero (div_ne_zero h1 htan) hD
  exact div_mul_cancel₀ v h2

/-- Witness for C9 (amended): concrete round trip on the angle-1
calculator with dimension 10 and distance 2. -/
theorem perspective_round_trip_witness :
    ∃ m, velocity_meters_per_second tanId calcPersp 2 10 2 = some m
      ∧ m * ((Int.fdiv 10 2 : ℚ) / tanId (calcPersp.perspective_angle / 2) / 2) = 2 :=
  perspective_round_trip tanId calcPersp 2 10 2
    (by norm_num [calcPersp, init, cJunk])
    (by norm_num [tanId, calcPersp, init, cJunk]) (by decide) (by norm_num)

/-! ### Claim C7 -/

/-- C7 counterexample: the claim says a wrong-sized `processBytes` call
leaves the staging byte buffer unchanged, but Python extended-slice
assignments are executed one after the other and each checks only its own
length.  On the 1x1 calculator (staging buffer `[0, 0, 0]`) with the
4-byte input `[9, 9, 9, 9]`, the first two slice assignments succeed
(their source slices have length 1) and write bytes 0 and 1; only the
third raises `ValueError`, so the call errors with the staging buffer
partially overwritten to `[9, 9, 0]` ≠ `[0, 0, 0]`. -/
theorem processBytes_partial_mutation_cex :
    (processBytes idResize zeroGray constFlow32 tanId false 0 calcTiny [9, 9, 9, 9] none
        (some 1)).2 = PyResult.valueError
    ∧ (processBytes idResize zeroGray constFlow32 tanId false 0 calcTiny [9, 9, 9, 9] none
        (some 1)).1.bgrbytes = [9, 9, 0]
    ∧ calcTiny.bgrbytes = [0, 0, 0]
    ∧ ([9, 9, 0] : List Nat) ≠ [0, 0, 0] := by
  refine ⟨by decide, by decide, by decide, by decide⟩

/-- C7 (amended): for every call to `processBytes` with a byte buffer whose
length differs from the staging buffer length `native_width*native_height*3`,
the call raises a size-mismatch `ValueError` and leaves the grayscale
buffers and the timestamp unchanged; the staging byte buffer may be
partially overwritten (channels whose slice assignment succeeded before the
failing one) but keeps its length, and a subsequent correctly sized call
still behaves exactly as if the bad call never happened, because a correct
call fully rewrites the staging buffer before using it. -/
theorem processBytes_wrong_size (resize : ColorImage → ColorImage)
    (cvtColor : ColorImage → GrayImage) (calcFlow : GrayImage → GrayImage → FlowField)
    (tan : ℚ → ℚ) (cancel : Bool) (now : ℚ) (c : OpticalFlowCalculator)
    (rgb : List Nat) (distance timestep : Option ℚ)
    (hmod : c.bgrbytes.length % 3 = 0)
    (hlen : rgb.length ≠ c.bgrbytes.length) :
    (processBytes resize cvtColor calcFlow tan cancel now c rgb distance timestep).2 =
        PyResult.valueError
    ∧ (processBytes resize cvtColor calcFlow tan cancel now c rgb distance
        timestep).1.gray = c.gray
    ∧ (processBytes resize cvtColor calcFlow tan cancel now c rgb distance
        timestep).1.prev_gray = c.prev_gray
    ∧ (processBytes resize cvtColor calcFlow tan cancel now c rgb distance
        timestep).1.prev_time = c.prev_time
    ∧ (processBytes resize cvtColor calcFlow tan cancel now c rgb distance
        timestep).1.bgrbytes.length = c.bgrbytes.length
    ∧ ∀ (cancel2 : Bool) (now2 : ℚ) (rgb2 : List Nat) (distance2 timestep2 : Option ℚ),
        rgb2.length = c.bgrbytes.length →
        processBytes resize cvtColor calcFlow tan cancel2 now2
            (processBytes resize cvtColor calcFlow tan cancel now c rgb distance
              timestep).1 rgb2 distance2 timestep2 =
          processBytes resize cvtColor calcFlow tan cancel2 now2 c rgb2 distance2
            timestep2 := by
  by_cases h0 : (getSlice3 rgb 2).length = sliceLen3 c.bgrbytes.length 0
  case neg =>
    have e : setSlice3 c.bgrbytes 0 (getSlice3 rgb 2) = none := setSlice3_none h0
    simp only [processBytes, e]
    simp
  case pos =>
    obtain ⟨f0, e0⟩ : ∃ f0, setSlice3 c.bgrbytes 0 (getSlice3 rgb 2) = some f0 :=
      ⟨_, by rw [setSlice3, if_pos h0]⟩
    have l0 : f0.length = c.bgrbytes.length := setSlice3_length e0
    by_cases h1 : (getSlice3 rgb 1).length = sliceLen3 f0.length 1
    case neg =>
      have e : setSlice3 f0 1 (getSlice3 rgb 1) = none := setSlice3_none h1
      simp only [processBytes, e0, e]
      refine ⟨by simp, by simp, by simp, by simp, by simpa using l0, ?_⟩
      intro cancel2 now2 rgb2 d2 t2 hr2
      exact processBytes_retry_indep resize cvtColor calcFlow tan cancel2 now2 c f0 rgb2
        d2 t2 l0 hmod hr2
    case pos =>
      obtain ⟨f1, e1⟩ : ∃ f1, setSlice3 f0 1 (getSlice3 rgb 1) = some f1 :=
        ⟨_, by rw [setSlice3, if_pos h1]⟩
      have l1 : f1.length = c.bgrbytes.length := by rw [setSlice3_length e1, l0]
      by_cases h2 : (getSlice3 rgb 0).length = sliceLen3 f1.length 2
      case pos =>
        exfalso
        rw [getSlice3_length] at h0 h1 h2
        rw [l0] at h1
        rw [l1] at h2
        simp only [sliceLen3] at h0 h1 h2
        omega
      case neg =>
        have e : setSlice3 f1 2 (getSlice3 rgb 0) = none := setSlice3_none h2
        simp only [processBytes, e0, e1, e]
        refine ⟨by simp, by simp, by simp, by simp, by simpa using l1, ?_⟩
        intro cancel2 now2 rgb2 d2 t2 hr2
        exact processBytes_retry_indep resize cvtColor calcFlow tan cancel2 now2 c f1 rgb2
          d2 t2 l1 hmod hr2

/-- Witness for C7 (amended): the concrete 4-byte bad call on the 1x1
calculator errors, preserves the grayscale buffers and timestamp, and a
following correctly sized 3-byte call behaves as if the bad call never
happened. -/
theorem processBytes_wrong_size_witness :
    (processBytes idResize zeroGray constFlow32 tanId false 0 calcTiny [9, 9, 9, 9] none
        (some 1)).2 = PyResult.valueError
    ∧ (processBytes idResize zeroGray constFlow32 tanId false 0 calcTiny [9, 9, 9, 9] none
        (some 1)).1.prev_time = calcTiny.prev_time
    ∧ processBytes idResize zeroGray constFlow32 tanId false 3
        (processBytes idResize zeroGray constFlow32 tanId false 0 calcTiny [9, 9, 9, 9]
          none (some 1)).1 [7, 8, 9] none (some 1) =
      processBytes idResize zeroGray constFlow32 tanId false 3 calcTiny [7, 8, 9] none
        (some 1) :=
  ⟨(processBytes_wrong_size idResize zeroGray constFlow32 tanId false 0 calcTiny
      [9, 9, 9, 9] none (some 1) (by decide) (by decide)).1,
    (processBytes_wrong_size idResize zeroGray constFlow32 tanId false 0 calcTiny
      [9, 9, 9, 9] none (some 1) (by decide) (by decide)).2.2.2.1,
    (processBytes_wrong_size idResize zeroGray constFlow32 tanId false 0 calcTiny
      [9, 9, 9, 9] none (some 1) (by decide) (by decide)).2.2.2.2.2 false 3 [7, 8, 9]
      none (some 1) (by decide)⟩

/-! ### Claim C5 -/

/-- C5, showing the code bug: `processBytes` swaps channels 0 and 2 into
the staging buffer correctly, but wraps the native-size staging image with
row stride `self.frame_width * 3`, and `self.frame_width` holds the
*scaled* width (line 79).  On the 2x2-native, scaledown-2 calculator the
stride used is 3 instead of the native 6, so row 1 of the staging image
reads byte offset 3 instead of 6.  With deterministic stubs whose velocity
reflects the byte at row 1 (`shiftGray` and `grayFlow`), the code returns
velocity (10, 0) while wrapping the same bytes at native resolution — the
spec's stated behavior, embodied by `processBytes_spec` — returns (20, 0).
The claim that `processBytes` equals `processFrame` on the
native-resolution reinterpretation therefore fails whenever the scaled
width differs from the native width. -/
theorem processBytes_stride_bug :
    (processBytes idResize shiftGray grayFlow tanId false 0 calcScaled rgb12 none
        (some 1)).2 = PyResult.velocity 10 0
    ∧ (processBytes_spec idResize shiftGray grayFlow tanId false 0 calcScaled rgb12 none
        (some 1)).2 = PyResult.velocity 20 0
    ∧ PyResult.velocity (10 : ℚ) 0 ≠ PyResult.velocity (20 : ℚ) 0 := by
  refine ⟨?_, ?_, ?_⟩
  · simp [processBytes, setSlice3, getSlice3, sliceLen3, setData, processFrame, calcScaled,
      init, cJunk, idResize, shiftGray, grayFlow, tanId, pyRange, pyRangeLen, get_velocity,
      pydiv, pyIntDiv, resolveTimestep, qtruthy, velocity_meters_per_second, rgb12,
      List.range_succ]
  · simp [processBytes_spec, setSlice3, getSlice3, sliceLen3, setData, processFrame,
      calcScaled, init, cJunk, idResize, shiftGray, grayFlow, tanId, pyRange, pyRangeLen,
      get_velocity, pydiv, pyIntDiv, resolveTimestep, qtruthy, velocity_meters_per_second,
      rgb12, List.range_succ]
  · norm_num

/-! ### Claim C6 -/

/-- C6: if the display-cancel signal (ESC) fires during a `processFrame` call
with a display attached, that call returns the distinguished no-result
outcome (`cancelled`) instead of a velocity, and neither rotates the
previous/current grayscale buffers (`prev_gray` keeps its value; the
rotation on line 135 is never reached) nor updates the stored
previous-call timestamp `prev_time`.  The stride must be nonzero, since a
zero stride raises `ValueError` in the sampling loop before the display
poll is reached. -/
theorem processFrame_cancel_no_state_advance (resize : ColorImage → ColorImage)
    (cvtColor : ColorImage → GrayImage) (calcFlow : GrayImage → GrayImage → FlowField)
    (tan : ℚ → ℚ) (now : ℚ) (c : OpticalFlowCalculator) (frame : ColorImage)
    (distance timestep : Option ℚ)
    (hw : c.window = true) (hms : c.move_step ≠ 0) :
    (processFrame resize cvtColor calcFlow tan true now c frame distance timestep).2 =
        PyResult.cancelled
    ∧ (processFrame resize cvtColor calcFlow tan true now c frame distance
        timestep).1.prev_gray = c.prev_gray
    ∧ (processFrame resize cvtColor calcFlow tan true now c frame distance
        timestep).1.prev_time = c.prev_time := by
  simp [processFrame, hms, hw]

/-- Witness for C6: a concrete cancelled call on the windowed 3x3
calculator. -/
theorem processFrame_cancel_no_state_advance_witness :
    (processFrame idResize zeroGray constFlow32 tanId true 7 calcWin blackFrame none
        (some 1)).2 = PyResult.cancelled
    ∧ (processFrame idResize zeroGray constFlow32 tanId true 7 calcWin blackFrame none
        (some 1)).1.prev_gray = calcWin.prev_gray
    ∧ (processFrame idResize zeroGray constFlow32 tanId true 7 calcWin blackFrame none
        (some 1)).1.prev_time = calcWin.prev_time :=
  processFrame_cancel_no_state_advance idResize zeroGray constFlow32 tanId 7 calcWin
    blackFrame none (some 1) (by decide) (by decide)

/-! ### Claim C10 -/

/-- C10: in every configuration where `move_step ^ 2` exceeds the
(nonnegative) product of the scaled flow-field height and width, the
integer sample count `(flow.height * flow.width) / move_step ** 2`
evaluates to 0, and every call to `processFrame` that reaches the velocity
computation (i.e. is not cancelled) fails with a division-by-zero error
instead of returning a velocity estimate. -/
theorem processFrame_count_zero_divide_error (resize : ColorImage → ColorImage)
    (cvtColor : ColorImage → GrayImage) (calcFlow : GrayImage → GrayImage → FlowField)
    (tan : ℚ → ℚ) (cancel : Bool) (now : ℚ) (c : OpticalFlowCalculator)
    (frame : ColorImage) (distance timestep : Option ℚ)
    (hms : 1 ≤ c.move_step)
    (hnn : 0 ≤ c.flow_height * c.flow_width)
    (hlt : c.flow_height * c.flow_width < c.move_step ^ 2)
    (hnc : (c.window && cancel) = false) :
    (processFrame resize cvtColor calcFlow tan cancel now c frame distance timestep).2 =
      PyResult.zeroDivError := by
  have hms0 : c.move_step ≠ 0 := by omega
  have hcount : Int.fdiv (c.flow_height * c.flow_width) (c.move_step ^ 2) = 0 := by
    rw [Int.fdiv_eq_ediv _ (by positivity)]
    exact Int.ediv_eq_zero_of_lt hnn hlt
  have hpow : c.move_step ^ 2 ≠ 0 := pow_ne_zero _ hms0
  simp [processFrame, hms0, hnc, get_velocity, pyIntDiv, pydiv, hpow, hcount]

/-- Witness for C10: the 4x4 calculator with stride 5 fails with a
division-by-zero error. -/
theorem processFrame_count_zero_divide_error_witness :
    (processFrame idResize zeroGray constFlow32 tanId false 0 calc4x4s5 blackFrame none
        (some 1)).2 = PyResult.zeroDivError :=
  processFrame_count_zero_divide_error idResize zeroGray constFlow32 tanId false 0
    calc4x4s5 blackFrame none (some 1) (by decide) (by decide) (by decide) (by decide)

/-! ### Claim C8 -/

/-- C8 counterexample: the claim requires construction to fail whenever the
sampling stride is < 1, but constructing a calculator with stride 0 (and
otherwise ordinary parameters) succeeds: the constructor performs no
parameter validation. -/
theorem init_stride_zero_succeeds_cex : (init 640 480 1 0 0 false).isSome = true := by
  decide

/-- C8 (amended): construction always derives
`scaled_width = floor(native_width / scaledown)` and
`scaled_height = floor(native_height / scaledown)` (stored as the flow-field
dimensions), but the constructor itself validates nothing: it fails exactly
when the `bytearray` allocation count `native_width*native_height*3` is
negative or `scaledown` is zero (a `ZeroDivisionError`); in particular it
does not fail for a stride < 1, non-positive native dimensions with a
nonnegative product, or scaled dimensions that resolve to 0 (any failure for
degenerate image sizes could only come from the external `cv.CreateImage`,
which is not code of this repository). -/
theorem init_characterization (w h sd : Int) (angle : ℚ) (ms : Int) (win : Bool) :
    ((init w h sd angle ms win).isSome = true ↔ (0 ≤ w * h * 3 ∧ sd ≠ 0))
    ∧ ∀ c0, init w h sd angle ms win = some c0 →
        c0.flow_width = Int.fdiv w sd ∧ c0.flow_height = Int.fdiv h sd ∧
        c0.move_step = ms ∧ c0.prev_time = none := by
  unfold init
  by_cases h1 : w * h * 3 < 0
  · simp only [if_pos h1, Option.isSome_none]
    constructor
    · constructor
      · intro h; cases h
      · intro h; omega
    · intro c0 h; cases h
  · by_cases h2 : sd = 0
    · simp only [if_neg h1, if_pos h2, Option.isSome_none]
      constructor
      · constructor
        · intro h; cases h
        · intro h; exact absurd h2 h.2
      · intro c0 h; cases h
    · simp only [if_neg h1, if_neg h2, Option.isSome_some]
      refine ⟨⟨fun _ => ⟨by omega, h2⟩, fun _ => trivial⟩, ?_⟩
      intro c0 h
      cases h
      exact ⟨rfl, rfl, rfl, rfl⟩

/-- Witness for C8: the 640x480 calculator with scaledown 2 is successfully
constructed and stores the floor-divided dimensions. -/
theorem init_characterization_witness :
    (init 640 480 2 0 16 false).isSome = true
    ∧ calc640.flow_width = Int.fdiv 640 2
    ∧ calc640.flow_height = Int.fdiv 480 2 :=
  ⟨(init_characterization 640 480 2 0 16 false).1.mpr (by norm_num),
    ((init_characterization 640 480 2 0 16 false).2 calc640 rfl).1,
    ((init_characterization 640 480 2 0 16 false).2 calc640 rfl).2.1⟩

end OpticalFlow
